import Mathlib

/-!
Verification of the LLM provider abstraction and routing layer.

The development shallowly embeds the provider adapters
(`OpenAIProvider`, `AnthropicProvider` from `app/llm/providers.py`), the
manager/orchestrator (`LLMManager` from `app/llm/manager.py`) and the MCP
tool layer's chat entry point (`_chat_with_llm` from `app/mcp_server.py`).
Vendor network calls are modelled as pure functions from the request the
adapter builds to the response the vendor reports; wall-clock timing is
modelled as an explicit argument.
-/

namespace LLMSpec

/-- A chat message: `{role, content}` dictionaries of the source. -/
structure Message where
  role : String
  content : String
  deriving DecidableEq, Repr

/-- The usage block of a normalized generation result. -/
structure UsageInfo where
  prompt_tokens : Nat
  completion_tokens : Nat
  total_tokens : Nat
  deriving DecidableEq, Repr

/-- The normalized result dictionary both providers return from
`generate_response`.  `execution_time` is the measured wall-clock duration,
modelled here as a plain number supplied from outside. -/
structure GenerationResult where
  content : String
  usage : UsageInfo
  model : String
  execution_time : Nat
  provider : String
  deriving DecidableEq, Repr

/-- The request an OpenAI-style adapter sends to its vendor: the message
list is passed through verbatim (system messages stay inline). -/
structure OpenAIRequest where
  model : String
  messages : List Message
  deriving DecidableEq, Repr

/-- What the OpenAI vendor reports back (`response.choices[0].message.content`,
`response.usage.*`, `response.model`). -/
structure OpenAIVendorResponse where
  content : String
  prompt_tokens : Nat
  completion_tokens : Nat
  total_tokens : Nat
  model : String
  deriving DecidableEq, Repr

/-- `OpenAIProvider.generate_response`: sends the messages verbatim and copies
the vendor-reported `prompt_tokens`, `completion_tokens` and `total_tokens`
into the usage block unchanged. -/
def OpenAIProvider.generate_response
    (vendor : OpenAIRequest → OpenAIVendorResponse) (execution_time : Nat)
    (messages : List Message) (model : String) : GenerationResult :=
  let resp := vendor { model := model, messages := messages }
  { content := resp.content
    usage :=
      { prompt_tokens := resp.prompt_tokens
        completion_tokens := resp.completion_tokens
        total_tokens := resp.total_tokens }
    model := resp.model
    execution_time := execution_time
    provider := "openai" }

/-- The request an Anthropic-style adapter sends to its vendor: the system
text travels in a separate top-level field (`none` models `NOT_GIVEN`,
i.e. the field being omitted). -/
structure AnthropicRequest where
  model : String
  messages : List Message
  system : Option String
  deriving DecidableEq, Repr

/-- What the Anthropic vendor reports back (`response.content[0].text`,
`response.usage.input_tokens` / `output_tokens`, `response.model`). -/
structure AnthropicVendorResponse where
  content : String
  input_tokens : Nat
  output_tokens : Nat
  model : String
  deriving DecidableEq, Repr

/-- The message-conversion loop shared by `AnthropicProvider.generate_response`
and `AnthropicProvider.stream_response`: `sys` is the running value of
`system_message` (initially `""`, overwritten by each system-role entry) and
`acc` the running `anthropic_messages` list. -/
def anthropicLoop : List Message → String → List Message → String × List Message
  | [], sys, acc => (sys, acc)
  | msg :: rest, sys, acc =>
    if msg.role == "system" then anthropicLoop rest msg.content acc
    else anthropicLoop rest sys (acc ++ [msg])

/-- The conversion as invoked: `system_message = ""`, `anthropic_messages = []`. -/
def anthropicConvert (messages : List Message) : String × List Message :=
  anthropicLoop messages "" []

/-- The vendor request built identically by `AnthropicProvider.generate_response`
and `AnthropicProvider.stream_response`: the converted message list, plus
`system = system_message if system_message else NOT_GIVEN` (an empty collected
system string means the field is omitted). -/
def AnthropicProvider.buildRequest (messages : List Message) (model : String) :
    AnthropicRequest :=
  let conv := anthropicConvert messages
  { model := model
    messages := conv.2
    system := if conv.1 == "" then none else some conv.1 }

/-- `AnthropicProvider.generate_response`: builds the converted request and
recomputes `total_tokens` as `input_tokens + output_tokens`. -/
def AnthropicProvider.generate_response
    (vendor : AnthropicRequest → AnthropicVendorResponse) (execution_time : Nat)
    (messages : List Message) (model : String) : GenerationResult :=
  let resp := vendor (AnthropicProvider.buildRequest messages model)
  { content := resp.content
    usage :=
      { prompt_tokens := resp.input_tokens
        completion_tokens := resp.output_tokens
        total_tokens := resp.input_tokens + resp.output_tokens }
    model := resp.model
    execution_time := execution_time
    provider := "anthropic" }

/-- The entries of a message list that are not system-role, in order. -/
def nonSystem (msgs : List Message) : List Message :=
  msgs.filter fun m => m.role != "system"

/-- The contents of the system-role entries of a message list, in order. -/
def systemContents (msgs : List Message) : List String :=
  (msgs.filter fun m => m.role == "system").map fun m => m.content

/-- The content of the last system-role entry, or `""` when there is none. -/
def lastSystemContent (msgs : List Message) : String :=
  (systemContents msgs).getLastD ""

theorem anthropicLoop_spec (msgs : List Message) (sys : String) (acc : List Message) :
    anthropicLoop msgs sys acc =
      ((systemContents msgs).getLastD sys, acc ++ nonSystem msgs) := by
  induction msgs generalizing sys acc with
  | nil => simp [anthropicLoop, systemContents, nonSystem]
  | cons msg rest ih =>
    cases hb : msg.role == "system" with
    | true =>
      have h1 : systemContents (msg :: rest) = msg.content :: systemContents rest := by
        simp [systemContents, List.filter_cons, hb]
      have h2 : nonSystem (msg :: rest) = nonSystem rest := by
        simp [nonSystem, List.filter_cons, hb, eq_of_beq hb]
      rw [h1, h2, List.getLastD_cons]
      simpa only [anthropicLoop, hb, if_true] using ih msg.content acc
    | false =>
      have h1 : systemContents (msg :: rest) = systemContents rest := by
        simp [systemContents, List.filter_cons, hb]
      have h2 : nonSystem (msg :: rest) = msg :: nonSystem rest := by
        simp [nonSystem, List.filter_cons, hb, ne_of_beq_false hb]
      rw [h1, h2]
      have := ih sys (acc ++ [msg])
      simp only [anthropicLoop, hb, Bool.false_eq_true, if_false, this,
        List.append_assoc, List.singleton_append]

theorem anthropicConvert_spec (msgs : List Message) :
    anthropicConvert msgs = (lastSystemContent msgs, nonSystem msgs) := by
  simp [anthropicConvert, anthropicLoop_spec, lastSystemContent]

/-- An initialized provider adapter, as held by the manager's `providers`
dictionary: its `generate_response` capability (vendor call already bound in)
and its hardcoded model allow-list `get_available_models`. -/
structure ProviderAdapter where
  generate_response : List Message → String → GenerationResult
  get_available_models : List String

/-- `OpenAIProvider.get_available_models` (hardcoded allow-list). -/
def OpenAIProvider.get_available_models : List String :=
  ["gpt-4", "gpt-4-turbo", "gpt-3.5-turbo", "gpt-3.5-turbo-16k"]

/-- `AnthropicProvider.get_available_models` (hardcoded allow-list). -/
def AnthropicProvider.get_available_models : List String :=
  ["claude-3-opus-20240229", "claude-3-sonnet-20240229", "claude-3-haiku-20240307"]

/-- An `OpenAIProvider` instance viewed through the adapter capability set. -/
def OpenAIProvider.adapter (vendor : OpenAIRequest → OpenAIVendorResponse)
    (execution_time : Nat) : ProviderAdapter :=
  { generate_response := OpenAIProvider.generate_response vendor execution_time
    get_available_models := OpenAIProvider.get_available_models }

/-- An `AnthropicProvider` instance viewed through the adapter capability set. -/
def AnthropicProvider.adapter (vendor : AnthropicRequest → AnthropicVendorResponse)
    (execution_time : Nat) : ProviderAdapter :=
  { generate_response := AnthropicProvider.generate_response vendor execution_time
    get_available_models := AnthropicProvider.get_available_models }

/-- The `ValueError`s raised by `LLMManager`, by raise site:
`providerNotAvailable` is `"Provider '{name}' not available"` (from
`generate_response` / `stream_response`), `noProvidersAvailable` is
`"No LLM providers are available"`, and `noModelsForProvider` is
`"No models available for provider '{name}'"` (both from `chat_completion`). -/
inductive LLMError where
  | providerNotAvailable (provider_name : String)
  | noProvidersAvailable
  | noModelsForProvider (provider_name : String)
  deriving DecidableEq, Repr

/-- The manager's `self.providers` dict; Python dicts iterate in insertion
order, so it is modelled as an association list. -/
structure LLMManager where
  providers : List (String × ProviderAdapter)

/-- `LLMManager.get_available_providers`: `list(self.providers.keys())`. -/
def LLMManager.get_available_providers (m : LLMManager) : List String :=
  m.providers.map Prod.fst

/-- `LLMManager.get_provider`: `self.providers.get(provider_name)`. -/
def LLMManager.get_provider (m : LLMManager) (provider_name : String) :
    Option ProviderAdapter :=
  (m.providers.find? fun p => p.1 == provider_name).map Prod.snd

/-- `LLMManager.get_default_provider`: `providers[0] if providers else None`. -/
def LLMManager.get_default_provider (m : LLMManager) : Option String :=
  m.get_available_providers.head?

/-- The `recommendations` table inside `get_recommended_model`; `none` models
a missing dictionary key (unknown provider or unknown task type). -/
def recommendations (provider_name task_type : String) : Option String :=
  if provider_name == "openai" then
    if task_type == "general" then some "gpt-3.5-turbo"
    else if task_type == "complex" then some "gpt-4"
    else if task_type == "fast" then some "gpt-3.5-turbo"
    else if task_type == "creative" then some "gpt-4"
    else none
  else if provider_name == "anthropic" then
    if task_type == "general" then some "claude-3-sonnet-20240229"
    else if task_type == "complex" then some "claude-3-opus-20240229"
    else if task_type == "fast" then some "claude-3-haiku-20240307"
    else if task_type == "creative" then some "claude-3-opus-20240229"
    else none
  else none

/-- `LLMManager.get_recommended_model`: the dictionary lookup
`recommendations.get(provider_name, {}).get(task_type, models[0])` followed by
`recommended if recommended in models else models[0]`. -/
def LLMManager.get_recommended_model (m : LLMManager)
    (provider_name task_type : String) : Option String :=
  match m.get_provider provider_name with
  | none => none
  | some provider =>
    match provider.get_available_models with
    | [] => none
    | m0 :: rest =>
      let recommended := (recommendations provider_name task_type).getD m0
      some (if (m0 :: rest).contains recommended then recommended else m0)

/-- `LLMManager.generate_response`: resolves the adapter by name and delegates;
an absent name raises `"Provider '{name}' not available"`. -/
def LLMManager.generate_response (m : LLMManager) (provider_name : String)
    (messages : List Message) (model : String) : Except LLMError GenerationResult :=
  match m.get_provider provider_name with
  | none => .error (.providerNotAvailable provider_name)
  | some provider => .ok (provider.generate_response messages model)

/-- Python truthiness of an `Optional[str]`: `None` and `""` are falsy. -/
def optStrTruthy : Option String → Bool
  | none => false
  | some s => s != ""

/-- The message-list assembly inside `chat_completion`: a system entry is
appended only when `system_prompt` is truthy (non-`None` and non-empty), the
history is appended when truthy (extending by an empty list is the same as
skipping it), then the new user turn. -/
def buildMessages (system_prompt : Option String)
    (conversation_history : Option (List Message)) (user_message : String) :
    List Message :=
  (match system_prompt with
   | some sp => if sp == "" then [] else [{ role := "system", content := sp }]
   | none => []) ++
  (match conversation_history with
   | some h => h
   | none => []) ++
  [{ role := "user", content := user_message }]

/-- `LLMManager.chat_completion` (non-streaming path): auto-selects a truthy
provider name (else the default, raising when that is falsy), auto-selects a
truthy model (else the `"general"` recommendation, raising when that is
falsy), assembles the messages and delegates to `generate_response`. -/
def LLMManager.chat_completion (m : LLMManager) (user_message : String)
    (provider_name : Option String) (model : Option String)
    (conversation_history : Option (List Message)) (system_prompt : Option String) :
    Except LLMError GenerationResult :=
  match (if optStrTruthy provider_name then provider_name else m.get_default_provider) with
  | none => .error .noProvidersAvailable
  | some pname =>
    if pname == "" then .error .noProvidersAvailable
    else
      match (if optStrTruthy model then model else m.get_recommended_model pname "general") with
      | none => .error (.noModelsForProvider pname)
      | some mdl =>
        if mdl == "" then .error (.noModelsForProvider pname)
        else
          m.generate_response pname
            (buildMessages system_prompt conversation_history user_message) mdl

/-- Failures of the MCP tool layer's `_chat_with_llm`: its own
`"Message is required"` check, or an error propagated from the manager. -/
inductive ChatToolError where
  | messageRequired
  | llm (e : LLMError)
  deriving DecidableEq, Repr

/-- `MCPServer._chat_with_llm` (result path): rejects a falsy message with
`"Message is required"` before `chat_completion` is invoked, then delegates
(no conversation history is passed at this call site). -/
def MCPServer.chatWithLLM (m : LLMManager) (message : String)
    (provider : Option String) (model : Option String)
    (system_prompt : Option String) : Except ChatToolError GenerationResult :=
  if message == "" then .error .messageRequired
  else (m.chat_completion message provider model none system_prompt).mapError ChatToolError.llm

/-- A test vendor that echoes the request into the response text, so theorems
can observe exactly which messages reached the vendor. -/
def echoVendorO : OpenAIRequest → OpenAIVendorResponse := fun req =>
  { content := String.intercalate "|" (req.messages.map fun m => m.role ++ "=" ++ m.content)
    prompt_tokens := 1
    completion_tokens := 2
    total_tokens := 3
    model := req.model }

/-- A test vendor for the Anthropic-style adapter. -/
def echoVendorA : AnthropicRequest → AnthropicVendorResponse := fun req =>
  { content := String.intercalate "|" (req.messages.map fun m => m.role ++ "=" ++ m.content)
    input_tokens := 3
    output_tokens := 4
    model := req.model }

/-- A manager with both providers registered (the configuration in which both
API keys are present), built over the echo test vendors. -/
def fullManager : LLMManager :=
  { providers :=
      [("openai", OpenAIProvider.adapter echoVendorO 0),
       ("anthropic", AnthropicProvider.adapter echoVendorA 0)] }

/-- A vendor whose reported total disagrees with the sum of its reported
input and output counts. -/
def badTotalsVendor : OpenAIRequest → OpenAIVendorResponse := fun _ =>
  { content := "hi", prompt_tokens := 1, completion_tokens := 2,
    total_tokens := 7, model := "gpt-4" }

/-- Claim C1 counterexample: the OpenAI-style adapter copies the vendor's
reported `total_tokens` verbatim, so a vendor reporting prompt 1, completion 2
and total 7 yields a result with `total_tokens ≠ input + output`. -/
theorem C1_counterexample :
    (OpenAIProvider.generate_response badTotalsVendor 0
        [{ role := "user", content := "q" }] "gpt-4").usage.total_tokens ≠
      (OpenAIProvider.generate_response badTotalsVendor 0
        [{ role := "user", content := "q" }] "gpt-4").usage.prompt_tokens +
      (OpenAIProvider.generate_response badTotalsVendor 0
        [{ role := "user", content := "q" }] "gpt-4").usage.completion_tokens := by
  decide

/-- Claim C1 (amended): for every non-empty message list, model and vendor
behavior, the Anthropic-style adapter's result satisfies
`total_tokens = input + output` by construction; the OpenAI-style adapter
copies all three vendor-reported counts verbatim, so its result satisfies the
invariant exactly when the vendor's reported total already equals the sum. -/
theorem C1_total_tokens
    (vendorA : AnthropicRequest → AnthropicVendorResponse)
    (vendorO : OpenAIRequest → OpenAIVendorResponse)
    (t : Nat) (msgs : List Message) (mdl : String)
    (_hne : msgs ≠ [])
    (hO : (vendorO { model := mdl, messages := msgs }).total_tokens =
          (vendorO { model := mdl, messages := msgs }).prompt_tokens +
          (vendorO { model := mdl, messages := msgs }).completion_tokens) :
    ((AnthropicProvider.generate_response vendorA t msgs mdl).usage.total_tokens =
      (AnthropicProvider.generate_response vendorA t msgs mdl).usage.prompt_tokens +
      (AnthropicProvider.generate_response vendorA t msgs mdl).usage.completion_tokens) ∧
    ((OpenAIProvider.generate_response vendorO t msgs mdl).usage.total_tokens =
      (OpenAIProvider.generate_response vendorO t msgs mdl).usage.prompt_tokens +
      (OpenAIProvider.generate_response vendorO t msgs mdl).usage.completion_tokens) := by
  exact ⟨rfl, hO⟩

/-- Witness for C1_total_tokens at a concrete vendor and message list. -/
theorem C1_total_tokens_witness :
    ([{ role := "user", content := "q" }] : List Message) ≠ [] ∧
    ((echoVendorO { model := "m", messages := [{ role := "user", content := "q" }] }).total_tokens =
      (echoVendorO { model := "m", messages := [{ role := "user", content := "q" }] }).prompt_tokens +
      (echoVendorO { model := "m", messages := [{ role := "user", content := "q" }] }).completion_tokens) ∧
    ((AnthropicProvider.generate_response echoVendorA 0
        [{ role := "user", content := "q" }] "m").usage.total_tokens =
      (AnthropicProvider.generate_response echoVendorA 0
        [{ role := "user", content := "q" }] "m").usage.prompt_tokens +
      (AnthropicProvider.generate_response echoVendorA 0
        [{ role := "user", content := "q" }] "m").usage.completion_tokens) ∧
    ((OpenAIProvider.generate_response echoVendorO 0
        [{ role := "user", content := "q" }] "m").usage.total_tokens =
      (OpenAIProvider.generate_response echoVendorO 0
        [{ role := "user", content := "q" }] "m").usage.prompt_tokens +
      (OpenAIProvider.generate_response echoVendorO 0
        [{ role := "user", content := "q" }] "m").usage.completion_tokens) :=
  ⟨by decide, by decide,
    C1_total_tokens echoVendorA echoVendorO 0 [{ role := "user", content := "q" }] "m"
      (by decide) (by decide)⟩

/-- Claim C4 counterexample: calling the orchestrator's `chat_completion` with
an empty user message does not fail — the adapter (and hence the vendor) is
invoked, receiving the empty user turn (the echo vendor shows the vendor saw
the single message `user=""`). -/
theorem C4_counterexample :
    fullManager.chat_completion "" none none none none =
      .ok { content := "user="
            usage := { prompt_tokens := 1, completion_tokens := 2, total_tokens := 3 }
            model := "gpt-3.5-turbo"
            execution_time := 0
            provider := "openai" } := rfl

/-- Claim C4 (amended): empty-input rejection lives in the MCP tool layer, not
the orchestrator: `_chat_with_llm` fails with its `"Message is required"`
error before `chat_completion` (and hence before any vendor call) for every
manager and option values, while `chat_completion` itself performs no
empty-message check. -/
theorem C4_empty_input (m : LLMManager) (p mo sp : Option String) :
    MCPServer.chatWithLLM m "" p mo sp = .error .messageRequired := rfl

/-- Claim C6: for every message list with zero system-role entries, the
Anthropic-style adapter's vendor call omits the system field entirely
(`none`, modelling `NOT_GIVEN`) rather than passing an empty string. -/
theorem C6_no_system_omitted (msgs : List Message) (mdl : String)
    (h : ∀ m ∈ msgs, m.role ≠ "system") :
    (AnthropicProvider.buildRequest msgs mdl).system = none := by
  have hs : systemContents msgs = [] := by
    simp only [systemContents, List.map_eq_nil_iff, List.filter_eq_nil_iff]
    intro a ha
    simpa using h a ha
  simp [AnthropicProvider.buildRequest, anthropicConvert_spec, lastSystemContent, hs]

/-- Witness for C6_no_system_omitted on a system-free message list. -/
theorem C6_no_system_omitted_witness :
    (∀ m ∈ [Message.mk "user" "B", Message.mk "assistant" "C"], m.role ≠ "system") ∧
    (AnthropicProvider.buildRequest
        [Message.mk "user" "B", Message.mk "assistant" "C"] "m").system = none :=
  ⟨by decide,
    C6_no_system_omitted [Message.mk "user" "B", Message.mk "assistant" "C"] "m" (by decide)⟩

/-- Claim C7: with an empty registry and no explicit provider, completion
fails with the distinguishable no-providers-available error (a defined error
value, not a crash), whatever the other arguments are. -/
theorem C7_empty_registry (user_message : String) (mo : Option String)
    (hist : Option (List Message)) (sp : Option String) :
    (LLMManager.mk []).chat_completion user_message none mo hist sp =
      .error .noProvidersAvailable := rfl

/-- Claim C10: a message list whose only system-role entry has empty content
yields a vendor call with the system field omitted (indistinguishable from no
system prompt), and the orchestrator assembles the same message list for an
empty-string system prompt as for an absent one. -/
theorem C10_empty_system_dropped (msgs : List Message) (mdl : String)
    (hone : systemContents msgs = [""]) :
    (AnthropicProvider.buildRequest msgs mdl).system = none ∧
    ∀ (hist : Option (List Message)) (u : String),
      buildMessages (some "") hist u = buildMessages none hist u := by
  constructor
  · simp [AnthropicProvider.buildRequest, anthropicConvert_spec, lastSystemContent, hone]
  · intro hist u
    rfl

/-- Witness for C10_empty_system_dropped at a concrete message list. -/
theorem C10_empty_system_dropped_witness :
    systemContents [Message.mk "system" "", Message.mk "user" "B"] = [""] ∧
    ((AnthropicProvider.buildRequest [Message.mk "system" "", Message.mk "user" "B"] "m").system
        = none ∧
      ∀ (hist : Option (List Message)) (u : String),
        buildMessages (some "") hist u = buildMessages none hist u) :=
  ⟨by decide,
    C10_empty_system_dropped [Message.mk "system" "", Message.mk "user" "B"] "m" (by decide)⟩

/-- Claim C2 counterexample: for the unrecognized task type `"unknown-task"`
the lookup falls back to the first entry of the provider's model list
(`"gpt-4"` for `"openai"`), not to the `"general"` mapping `"gpt-3.5-turbo"`. -/
theorem C2_counterexample :
    fullManager.get_recommended_model "openai" "unknown-task" = some "gpt-4" ∧
    fullManager.get_recommended_model "openai" "unknown-task" ≠ some "gpt-3.5-turbo" := by
  decide

/-- Claim C2 (amended): with both standard adapters registered,
`get_recommended_model` returns `"gpt-4"` for `("openai", "complex")` and
`"claude-3-haiku-20240307"` for `("anthropic", "fast")`; for every task type
outside `{general, complex, fast, creative}` it returns the first entry of the
provider's model list (`"gpt-4"` for `"openai"`), not the `"general"` mapping. -/
theorem C2_recommended_models
    (vo : OpenAIRequest → OpenAIVendorResponse)
    (va : AnthropicRequest → AnthropicVendorResponse)
    (t1 t2 : Nat) (task : String)
    (htask : task ∉ (["general", "complex", "fast", "creative"] : List String)) :
    (LLMManager.mk [("openai", OpenAIProvider.adapter vo t1),
        ("anthropic", AnthropicProvider.adapter va t2)]).get_recommended_model
        "openai" "complex" = some "gpt-4" ∧
    (LLMManager.mk [("openai", OpenAIProvider.adapter vo t1),
        ("anthropic", AnthropicProvider.adapter va t2)]).get_recommended_model
        "anthropic" "fast" = some "claude-3-haiku-20240307" ∧
    (LLMManager.mk [("openai", OpenAIProvider.adapter vo t1),
        ("anthropic", AnthropicProvider.adapter va t2)]).get_recommended_model
        "openai" task = some "gpt-4" := by
  refine ⟨rfl, rfl, ?_⟩
  simp only [List.mem_cons, List.not_mem_nil, or_false, not_or] at htask
  obtain ⟨h1, h2, h3, h4⟩ := htask
  have hrec : recommendations "openai" task = none := by
    simp [recommendations, h1, h2, h3, h4]
  simp [LLMManager.get_recommended_model, LLMManager.get_provider,
    OpenAIProvider.adapter, OpenAIProvider.get_available_models, hrec]

/-- Witness for C2_recommended_models at the task type "unknown-task". -/
theorem C2_recommended_models_witness :
    "unknown-task" ∉ (["general", "complex", "fast", "creative"] : List String) ∧
    ((LLMManager.mk [("openai", OpenAIProvider.adapter echoVendorO 0),
        ("anthropic", AnthropicProvider.adapter echoVendorA 0)]).get_recommended_model
        "openai" "complex" = some "gpt-4" ∧
      (LLMManager.mk [("openai", OpenAIProvider.adapter echoVendorO 0),
        ("anthropic", AnthropicProvider.adapter echoVendorA 0)]).get_recommended_model
        "anthropic" "fast" = some "claude-3-haiku-20240307" ∧
      (LLMManager.mk [("openai", OpenAIProvider.adapter echoVendorO 0),
        ("anthropic", AnthropicProvider.adapter echoVendorA 0)]).get_recommended_model
        "openai" "unknown-task" = some "gpt-4") :=
  ⟨by decide,
    C2_recommended_models echoVendorO echoVendorA 0 0 "unknown-task" (by decide)⟩

/-- Claim C3 counterexample: a system-role entry whose content is the empty
string is not extracted into the system field — the field is omitted
(`none`), so the vendor call does not carry the system content `""`. -/
theorem C3_counterexample :
    (AnthropicProvider.buildRequest
        [Message.mk "system" "", Message.mk "user" "B"] "m").system = none ∧
    (AnthropicProvider.buildRequest
        [Message.mk "system" "", Message.mk "user" "B"] "m").system ≠ some "" := by
  decide

/-- Claim C3 (amended): for every message list with at least one system-role
entry, the vendor call's message list is exactly the non-system entries
unchanged and in original order, and whenever the last system entry's content
is non-empty the system field holds exactly that content (an empty last
system content instead makes the field omitted). -/
theorem C3_system_extraction (msgs : List Message) (mdl : String)
    (_hsys : systemContents msgs ≠ [])
    (hne : lastSystemContent msgs ≠ "") :
    (AnthropicProvider.buildRequest msgs mdl).messages = nonSystem msgs ∧
    (AnthropicProvider.buildRequest msgs mdl).system = some (lastSystemContent msgs) := by
  refine ⟨?_, ?_⟩
  · simp [AnthropicProvider.buildRequest, anthropicConvert_spec]
  · simp [AnthropicProvider.buildRequest, anthropicConvert_spec, hne]

/-- Witness for C3_system_extraction on the spec's worked example. -/
theorem C3_system_extraction_witness :
    systemContents [Message.mk "system" "A", Message.mk "user" "B",
        Message.mk "assistant" "C", Message.mk "user" "D"] ≠ [] ∧
    lastSystemContent [Message.mk "system" "A", Message.mk "user" "B",
        Message.mk "assistant" "C", Message.mk "user" "D"] ≠ "" ∧
    ((AnthropicProvider.buildRequest [Message.mk "system" "A", Message.mk "user" "B",
          Message.mk "assistant" "C", Message.mk "user" "D"] "m").messages =
        nonSystem [Message.mk "system" "A", Message.mk "user" "B",
          Message.mk "assistant" "C", Message.mk "user" "D"] ∧
      (AnthropicProvider.buildRequest [Message.mk "system" "A", Message.mk "user" "B",
          Message.mk "assistant" "C", Message.mk "user" "D"] "m").system =
        some (lastSystemContent [Message.mk "system" "A", Message.mk "user" "B",
          Message.mk "assistant" "C", Message.mk "user" "D"])) :=
  ⟨by decide, by decide,
    C3_system_extraction [Message.mk "system" "A", Message.mk "user" "B",
      Message.mk "assistant" "C", Message.mk "user" "D"] "m" (by decide) (by decide)⟩

/-- Claim C5 counterexample: an explicit unregistered provider with the model
omitted fails with the no-models error (`"No models available for provider
'mistral'"`), not with the unknown-provider error. -/
theorem C5_counterexample :
    fullManager.chat_completion "hi" (some "mistral") none none none =
      .error (.noModelsForProvider "mistral") ∧
    fullManager.chat_completion "hi" (some "mistral") none none none ≠
      .error (.providerNotAvailable "mistral") := by
  have hv : fullManager.chat_completion "hi" (some "mistral") none none none =
      .error (.noModelsForProvider "mistral") := rfl
  refine ⟨hv, fun h => ?_⟩
  exact absurd (Except.error.inj (h.symm.trans hv)) (by decide)

/-- Claim C5 (amended): for an explicitly specified provider name absent from
the registry, completion fails with the unknown-provider error when the model
is specified, but with the no-models error when the model is omitted (model
resolution consults the registry first and reports the missing provider as a
missing model). -/
theorem C5_unknown_provider (m : LLMManager) (name user_message mdl : String)
    (hn : name ≠ "") (hmdl : mdl ≠ "")
    (habsent : ∀ p ∈ m.providers, p.1 ≠ name) :
    m.chat_completion user_message (some name) (some mdl) none none =
      .error (.providerNotAvailable name) ∧
    m.chat_completion user_message (some name) none none none =
      .error (.noModelsForProvider name) := by
  have hfind : m.providers.find? (fun p => p.1 == name) = none := by
    rw [List.find?_eq_none]
    intro p hp
    simpa using habsent p hp
  have hget : m.get_provider name = none := by
    simp [LLMManager.get_provider, hfind]
  have htru : optStrTruthy (some name) = true := by
    simp [optStrTruthy, hn]
  have hbeq : (name == "") = false := by
    simp [hn]
  have hmtru : optStrTruthy (some mdl) = true := by
    simp [optStrTruthy, hmdl]
  have hmbeq : (mdl == "") = false := by
    simp [hmdl]
  constructor
  · simp [LLMManager.chat_completion, htru, hbeq, hmtru, hmbeq, hn, hmdl,
      LLMManager.generate_response, hget]
  · simp [LLMManager.chat_completion, htru, hbeq, hn, optStrTruthy,
      LLMManager.get_recommended_model, hget]

/-- Witness for C5_unknown_provider at the concrete name "mistral". -/
theorem C5_unknown_provider_witness :
    "mistral" ≠ "" ∧ "gpt-9" ≠ "" ∧
    (∀ p ∈ fullManager.providers, p.1 ≠ "mistral") ∧
    (fullManager.chat_completion "hi" (some "mistral") (some "gpt-9") none none =
        .error (.providerNotAvailable "mistral") ∧
      fullManager.chat_completion "hi" (some "mistral") none none none =
        .error (.noModelsForProvider "mistral")) :=
  ⟨by decide, by decide, by decide,
    C5_unknown_provider fullManager "mistral" "hi" "gpt-9" (by decide) (by decide) (by decide)⟩

/-- The spec's reading of "system prompt message, if a system prompt was
given": one system entry for any given prompt, including the empty one. -/
def sysPromptList : Option String → List Message
  | some sp => [{ role := "system", content := sp }]
  | none => []

/-- Claim C8 counterexample: an empty-string system prompt is given but
dropped, so the assembled list is not
`[system prompt message] ++ history ++ [user turn]`. -/
theorem C8_counterexample :
    buildMessages (some "") (some [Message.mk "user" "h"]) "hi" ≠
      sysPromptList (some "") ++ [Message.mk "user" "h"] ++ [Message.mk "user" "hi"] := by
  decide

/-- Claim C8 (amended): whenever the given system prompt is not the empty
string, the message list handed to the resolved adapter is exactly
`[system prompt message, if given] ++ history ++ [new user turn]` in that
order (an empty-string system prompt is dropped instead). -/
theorem C8_message_assembly (m : LLMManager) (name mdl user_message : String)
    (a : ProviderAdapter) (hist : Option (List Message)) (sp : Option String)
    (hn : name ≠ "") (hmdl : mdl ≠ "") (hsp : sp ≠ some "")
    (hget : m.get_provider name = some a) :
    m.chat_completion user_message (some name) (some mdl) hist sp =
      .ok (a.generate_response
          (sysPromptList sp ++ hist.getD [] ++ [{ role := "user", content := user_message }])
          mdl) := by
  have hbuild : buildMessages sp hist user_message =
      sysPromptList sp ++ hist.getD [] ++ [{ role := "user", content := user_message }] := by
    cases sp with
    | none => cases hist <;> rfl
    | some s =>
      have hs : s ≠ "" := fun h => hsp (by rw [h])
      cases hist <;> simp [buildMessages, sysPromptList, hs]
  have htru : optStrTruthy (some name) = true := by
    simp [optStrTruthy, hn]
  have hbeq : (name == "") = false := by
    simp [hn]
  have hmtru : optStrTruthy (some mdl) = true := by
    simp [optStrTruthy, hmdl]
  have hmbeq : (mdl == "") = false := by
    simp [hmdl]
  simp [LLMManager.chat_completion, htru, hbeq, hmtru, hmbeq,
    LLMManager.generate_response, hget, hbuild]

/-- Witness for C8_message_assembly with a system prompt, one history turn and
a new user turn, dispatched through the registered OpenAI adapter. -/
theorem C8_message_assembly_witness :
    "openai" ≠ "" ∧ "gpt-4" ≠ "" ∧ (some "S" : Option String) ≠ some "" ∧
    fullManager.get_provider "openai" = some (OpenAIProvider.adapter echoVendorO 0) ∧
    fullManager.chat_completion "hi" (some "openai") (some "gpt-4")
        (some [Message.mk "user" "h"]) (some "S") =
      .ok ((OpenAIProvider.adapter echoVendorO 0).generate_response
          (sysPromptList (some "S") ++ [Message.mk "user" "h"] ++
            [{ role := "user", content := "hi" }]) "gpt-4") :=
  ⟨by decide, by decide, by decide, rfl,
    C8_message_assembly fullManager "openai" "gpt-4" "hi"
      (OpenAIProvider.adapter echoVendorO 0) (some [Message.mk "user" "h"]) (some "S")
      (by decide) (by decide) (by decide) rfl⟩

/-- Claim C9 counterexample: with system entries `"A"` then `""`, the adapter
does not send the last system entry's content as the system field — the
collected system string is empty, so the field is omitted (and `"A"` is gone
as well). -/
theorem C9_counterexample :
    (AnthropicProvider.buildRequest
        [Message.mk "system" "A", Message.mk "system" "", Message.mk "user" "B"] "m").system
      = none ∧
    (AnthropicProvider.buildRequest
        [Message.mk "system" "A", Message.mk "system" "", Message.mk "user" "B"] "m").system
      ≠ some "" := by
  decide

/-- Claim C9 (amended): for every message list with two or more system-role
entries, the vendor call's message list is exactly the non-system entries (so
every earlier system entry's content is dropped), and the system field is the
last system entry's content when that content is non-empty, and omitted when
it is empty. -/
theorem C9_last_system_wins (msgs : List Message) (mdl : String)
    (_h2 : 2 ≤ (systemContents msgs).length) :
    (AnthropicProvider.buildRequest msgs mdl).messages = nonSystem msgs ∧
    (AnthropicProvider.buildRequest msgs mdl).system =
      (if lastSystemContent msgs = "" then none else some (lastSystemContent msgs)) := by
  refine ⟨by simp [AnthropicProvider.buildRequest, anthropicConvert_spec], ?_⟩
  by_cases h : lastSystemContent msgs = "" <;>
    simp [AnthropicProvider.buildRequest, anthropicConvert_spec, h]

/-- Witness for C9_last_system_wins on a list with two system entries. -/
theorem C9_last_system_wins_witness :
    2 ≤ (systemContents [Message.mk "system" "A", Message.mk "system" "B",
        Message.mk "user" "C"]).length ∧
    ((AnthropicProvider.buildRequest [Message.mk "system" "A", Message.mk "system" "B",
          Message.mk "user" "C"] "m").messages =
        nonSystem [Message.mk "system" "A", Message.mk "system" "B", Message.mk "user" "C"] ∧
      (AnthropicProvider.buildRequest [Message.mk "system" "A", Message.mk "system" "B",
          Message.mk "user" "C"] "m").system =
        (if lastSystemContent [Message.mk "system" "A", Message.mk "system" "B",
            Message.mk "user" "C"] = "" then none
         else some (lastSystemContent [Message.mk "system" "A", Message.mk "system" "B",
            Message.mk "user" "C"]))) :=
  ⟨by decide,
    C9_last_system_wins [Message.mk "system" "A", Message.mk "system" "B",
      Message.mk "user" "C"] "m" (by decide)⟩

end LLMSpec
